import Mathlib

/-!
Verification of the upload-queue / vision-client core of the cloudimg
repository: a shallow embedding in Lean 4 of
`wallpepersphere/queue_manager.py` (UploadQueueManager),
`wallpepersphere/visual.py` and `photoshop/visual.py` (VisualRecognizer).

Python strings are modelled as Lean `String`, the filesystem as the list of
existing paths, Python dicts keyed by strings as insertion-ordered
association lists, and the JSON values handled by `json.loads` as an
inductive type (numeric literals are modelled as integers; the model
responses under study only contain strings and integers).
-/

/-! ## Filesystem model: the set of paths that currently exist on disk. -/

abbrev FS := List String

/-- `os.remove p` (as used by the code: always guarded by `os.path.exists`);
removal of every occurrence models set semantics. -/
def FS.remove (fs : FS) (p : String) : FS := fs.filter (fun q => q ≠ p)

/-- Staging a copy: the destination path now exists. -/
def FS.add (fs : FS) (p : String) : FS := if p ∈ fs then fs else p :: fs

/-! ## JSON values (model of the values produced by `json.loads`). -/

inductive Json where
  | null : Json
  | bool (b : Bool) : Json
  | num (n : Int) : Json
  | str (s : String) : Json
  | arr (elems : List Json) : Json
  | obj (members : List (String × Json)) : Json

/-- Python truthiness of a `json.loads` value (`if result.get('data')`). -/
def Json.truthy : Json → Bool
  | .null => false
  | .bool b => b
  | .num n => n != 0
  | .str s => !s.isEmpty
  | .arr l => !l.isEmpty
  | .obj l => !l.isEmpty

/-- Python-dict assignment `m[k] = v`: replaces the value at an existing key
in place, otherwise appends (insertion order preserved). -/
def dictAssign (m : List (String × Json)) (k : String) (v : Json) :
    List (String × Json) :=
  if m.any (fun p => p.1 = k) then
    m.map (fun p => if p.1 = k then (k, v) else p)
  else
    m ++ [(k, v)]

/-- Building a Python dict from parsed key/value pairs: later duplicate keys
overwrite earlier ones (the behaviour of `json.loads` and of dict
comprehensions). -/
def pyDict (l : List (String × Json)) : List (String × Json) :=
  l.foldl (fun m p => dictAssign m p.1 p.2) []

/-! ## A JSON parser modelling `json.loads` (fuel-based recursive descent;
escapes beyond `\"` `\\` `\n` `\t` `\r` `\/` and non-integer numerals are
outside the modelled fragment). -/

def isJsonWs (c : Char) : Bool := c = ' ' || c = '\n' || c = '\t' || c = '\r'

def skipWs : List Char → List Char
  | [] => []
  | c :: rest => if isJsonWs c then skipWs rest else c :: rest

def unescapeChar (c : Char) : Char :=
  if c = 'n' then '\n' else if c = 't' then '\t' else if c = 'r' then '\r' else c

/-- Parse the body of a JSON string after the opening quote, returning the
decoded characters and the input after the closing quote.  The flag records
whether the previous character was an unconsumed backslash. -/
def parseStringBodyAux : Bool → List Char → Option (List Char × List Char)
  | _, [] => none
  | true, c :: rest =>
    match parseStringBodyAux false rest with
    | some (cs, r) => some (unescapeChar c :: cs, r)
    | none => none
  | false, c :: rest =>
    if c = '"' then some ([], rest)
    else if c = '\\' then parseStringBodyAux true rest
    else
      match parseStringBodyAux false rest with
      | some (cs, r) => some (c :: cs, r)
      | none => none

def parseStringBody (l : List Char) : Option (List Char × List Char) :=
  parseStringBodyAux false l

def digitVal (c : Char) : Nat := c.toNat - '0'.toNat

def parseDigits : List Char → Nat → Nat × List Char
  | c :: rest, acc =>
    if c.isDigit then parseDigits rest (acc * 10 + digitVal c) else (acc, c :: rest)
  | [], acc => (acc, [])

/-- Parse an integer numeral (optionally signed). -/
def parseNum : List Char → Option (Int × List Char)
  | '-' :: c :: rest =>
    if c.isDigit then
      let (n, r) := parseDigits (c :: rest) 0
      some (-(n : Int), r)
    else none
  | c :: rest =>
    if c.isDigit then
      let (n, r) := parseDigits (c :: rest) 0
      some ((n : Int), r)
    else none
  | [] => none

mutual

/-- Parse one JSON value (leading whitespace allowed). -/
def parseVal : Nat → List Char → Option (Json × List Char)
  | 0, _ => none
  | fuel + 1, s =>
    match skipWs s with
    | [] => none
    | c :: rest =>
      if c = 'n' then
        match rest with
        | 'u' :: 'l' :: 'l' :: r => some (.null, r)
        | _ => none
      else if c = 't' then
        match rest with
        | 'r' :: 'u' :: 'e' :: r => some (.bool true, r)
        | _ => none
      else if c = 'f' then
        match rest with
        | 'a' :: 'l' :: 's' :: 'e' :: r => some (.bool false, r)
        | _ => none
      else if c = '"' then
        match parseStringBody rest with
        | some (cs, r) => some (.str (String.mk cs), r)
        | none => none
      else if c = '[' then
        match skipWs rest with
        | ']' :: r => some (.arr [], r)
        | s' =>
          match parseElems fuel s' with
          | some (xs, r) => some (.arr xs, r)
          | none => none
      else if c = '\x7b' then
        match skipWs rest with
        | '\x7d' :: r => some (.obj [], r)
        | s' =>
          match parseMembers fuel s' with
          | some (kvs, r) => some (.obj (pyDict kvs), r)
          | none => none
      else
        match parseNum (c :: rest) with
        | some (n, r) => some (.num n, r)
        | none => none

/-- Parse a non-empty comma-separated list of values up to `]`. -/
def parseElems : Nat → List Char → Option (List Json × List Char)
  | 0, _ => none
  | fuel + 1, s =>
    match parseVal fuel s with
    | some (v, r) =>
      match skipWs r with
      | ',' :: r' =>
        match parseElems fuel r' with
        | some (xs, r'') => some (v :: xs, r'')
        | none => none
      | ']' :: r' => some ([v], r')
      | _ => none
    | none => none

/-- Parse a non-empty comma-separated list of `"key": value` members up to
the closing brace. -/
def parseMembers : Nat → List Char → Option (List (String × Json) × List Char)
  | 0, _ => none
  | fuel + 1, s =>
    match skipWs s with
    | '"' :: rest =>
      match parseStringBody rest with
      | some (k, r) =>
        match skipWs r with
        | ':' :: r' =>
          match parseVal fuel r' with
          | some (v, r'') =>
            match skipWs r'' with
            | ',' :: r3 =>
              match parseMembers fuel r3 with
              | some (kvs, r4) => some ((String.mk k, v) :: kvs, r4)
              | none => none
            | '\x7d' :: r3 => some ([(String.mk k, v)], r3)
            | _ => none
          | none => none
        | _ => none
      | none => none
    | _ => none

end

/-- Model of `json.loads`: the whole input must be one JSON value (possibly
surrounded by whitespace). -/
def jsonLoads (s : List Char) : Option Json :=
  match parseVal (s.length + 1) s with
  | some (v, r) => if skipWs r = [] then some v else none
  | none => none

/-! ## The response-text pipeline of `VisualRecognizer.analyze_image`
(identical in `photoshop/visual.py` and `wallpepersphere/visual.py`):
`text = response.text.strip()`, `re.search(r'\x7b.*\x7d', text, re.DOTALL)`,
`json.loads(match.group(0))`, lower-casing of top-level keys. -/

/-- `str.strip()` on whitespace. -/
def pyStrip (s : List Char) : List Char :=
  ((s.dropWhile isJsonWs).reverse.dropWhile isJsonWs).reverse

/-- The text matched by `re.search(r'\x7b.*\x7d', text, re.DOTALL)`: because
`.*` is greedy and `.` matches newlines, this is the span from the first
opening brace of the text to the last closing brace, provided the first
opening brace comes before the last closing brace; otherwise no match. -/
def braceSpan (s : List Char) : Option (List Char) :=
  let upToLastClose := (s.reverse.dropWhile (fun c => c ≠ '\x7d')).reverse
  let span := upToLastClose.dropWhile (fun c => c ≠ '\x7b')
  if span.isEmpty then none else some span

/-- Python `str.lower()` (the keys in play are ASCII). -/
def pyLower (s : String) : String := String.mk (s.data.map Char.toLower)

/-- `data = dict((k.lower(), v) for k, v in data.items())`: lower-case the keys,
later duplicates overwriting earlier entries. -/
def lowerKeys (kvs : List (String × Json)) : List (String × Json) :=
  pyDict (kvs.map (fun p => (pyLower p.1, p.2)))

/-- The uniform result dictionary returned by `analyze_image`
(`success`, optional `data`, optional `error`, `critical_stop` defaulting to
`False` where absent). -/
structure AnalyzeResult where
  success : Bool
  data : Option Json := none
  error : Option String := none
  critical_stop : Bool := false

/-- Truthiness of `result.get('data')`. -/
def dataTruthy : Option Json → Bool
  | none => false
  | some j => j.truthy

/-- The parse branch of `analyze_image` applied to a structurally valid,
non-safety-blocked response text (`photoshop/visual.py` lines 189-207,
`wallpepersphere/visual.py` lines 164-181): strip, extract the greedy brace
span, `json.loads` it, lower-case top-level keys of a dict result.  The
`JSON Error` message carries the decoder detail in the source; the model
keeps the distinguishing prefix. -/
def parseAnalysisText (text : List Char) : AnalyzeResult :=
  let t := pyStrip text
  match braceSpan t with
  | none => { success := false, error := some "No JSON found in response" }
  | some span =>
    match jsonLoads span with
    | some (Json.obj kvs) => { success := true, data := some (Json.obj (lowerKeys kvs)) }
    | some v => { success := true, data := some v }
    | none => { success := false, error := some "JSON Error" }

/-- Modelled from the spec: "extract the first JSON object found in the
text" — the JSON object parsed at the first position of the text where a
complete JSON object can be parsed (whatever follows it ignored).  This is
the spec-side reading against which the source's greedy regex is compared;
it is not a definition of the source. -/
def firstJsonObject : List Char → Option Json
  | [] => none
  | c :: rest =>
    if c = '\x7b' then
      match parseVal (rest.length + 2) (c :: rest) with
      | some (Json.obj kvs, _) => some (Json.obj kvs)
      | _ => firstJsonObject rest
    else firstJsonObject rest

/-! ## Python `str()` of integers, modelled by an explicit decimal
rendering (used by the f-strings that build task ids and staged
filenames). -/

/-- The character of one decimal digit. -/
def digitChar10 (d : Nat) : Char :=
  ['0', '1', '2', '3', '4', '5', '6', '7', '8', '9'].getD d '*'

/-- Little-endian decimal digits of `n` (empty for 0); the first argument
is fuel, always called with `fuel = n`. -/
def natDigitsAux : Nat → Nat → List Nat
  | 0, _ => []
  | fuel + 1, n => if n = 0 then [] else (n % 10) :: natDigitsAux fuel (n / 10)

def natDigitsLE (n : Nat) : List Nat := natDigitsAux n n

/-- `str(n)` for a non-negative integer. -/
def pyStrNat (n : Nat) : List Char :=
  if n = 0 then ['0'] else ((natDigitsLE n).reverse).map digitChar10

/-- `str(u)` for a Python integer (negatives rendered with a minus sign). -/
def pyStrInt : Int → List Char
  | .ofNat n => pyStrNat n
  | .negSucc n => '-' :: pyStrNat (n + 1)

/-- The task identity of `add_to_queue`: the f-string interpolation of
`user_id`, an underscore and `timestamp`, where `timestamp = int(time.time() * 1000)`
is passed in as the millisecond clock reading of the call. -/
def taskId (user_id : Int) (timestamp : Nat) : String :=
  String.mk (pyStrInt user_id ++ '_' :: pyStrNat timestamp)

/-! ## Task records and the queue-manager state
(`wallpepersphere/queue_manager.py`). -/

/-- One task dictionary.  `none` in an `Option` field models an absent
dictionary key.  Statuses and task types are the source's literal strings. -/
structure QTask where
  id : String
  user_id : Int
  type : String
  status : String
  attempts : Nat := 0
  file_path : Option String := none
  source_file_path : Option String := none
  original_name : Option String := none
  prompt : Option String := none
  aspect_ratio : Option String := none
  result : Option Json := none
  error : Option String := none
  critical_stop : Option Bool := none

/-- The mutable state of `UploadQueueManager`: the id-keyed task store and
the FIFO queue.  In the source the queue holds the same dict objects that
the store holds; here the queue holds the ids and the store is the single
point of truth. -/
structure QMState where
  tasks : List (String × QTask)
  queue : List String

/-- Python dict insertion `self.tasks[task['id']] = task`. -/
def tasksInsert (m : List (String × QTask)) (k : String) (v : QTask) :
    List (String × QTask) :=
  if m.any (fun p => p.1 = k) then
    m.map (fun p => if p.1 = k then (k, v) else p)
  else
    m ++ [(k, v)]

/-- `os.path.basename`. -/
def basename (p : String) : String :=
  String.mk ((p.data.reverse.takeWhile (fun c => c ≠ '/')).reverse)

/-- Truthiness of an optional string (`if not source_file_path`,
`if not prompt`). -/
def optStrTruthy : Option String → Bool
  | none => false
  | some s => !s.isEmpty

/-- The keyword arguments of one `add_to_queue` call. -/
structure AddCall where
  task_type : String
  user_id : Int
  source_file_path : Option String := none
  prompt : Option String := none
  aspect_ratio : Option String := none

/-- `UploadQueueManager.add_to_queue` (lines 61-120).  `ts` is the
millisecond clock reading `int(time.time() * 1000)`; `copyFails` is whether
the `shutil.copy2` staging I/O raises; `partialWrite` is whether a raising
copy had already created (or partially written) the destination file before
failing — `shutil.copy2` can fail mid-copy on a full disk, or in `copystat`
after the data was written, so a failed staging may leave a file in queue
storage.  `hasGenerator` records whether a `vertex_generator` was
configured.  Every exception raised in the body is caught and turned into
`none`; the store and queue are only touched after a successful copy. -/
def add_to_queue (storagePath : String) (hasGenerator : Bool)
    (copyFails partialWrite : Bool)
    (fs : FS) (st : QMState) (ts : Nat) (c : AddCall) :
    Option String × QMState × FS :=
  let base : QTask :=
    { id := taskId c.user_id ts, user_id := c.user_id, type := c.task_type,
      status := "queued", attempts := 0 }
  if c.task_type = "analyze" then
    match c.source_file_path with
    | none => (none, st, fs)      -- FileNotFoundError, caught: returns None
    | some src =>
      if src.isEmpty ∨ src ∉ fs then (none, st, fs)
      else
        let fname := basename src
        let safe := String.mk (pyStrNat ts) ++ "_" ++
          String.mk (pyStrInt c.user_id) ++ "_" ++ fname
        let dest := storagePath ++ "/" ++ safe
        if copyFails then
          -- shutil.copy2 raised, caught: None is returned with the store
          -- and queue untouched, but the destination file may already exist
          (none, st, if partialWrite then FS.add fs dest else fs)
        else
          let t := { base with
            file_path := some dest, source_file_path := some src,
            original_name := some fname }
          (some t.id,
           { tasks := tasksInsert st.tasks t.id t, queue := st.queue ++ [t.id] },
           FS.add fs dest)
  else if c.task_type = "generate" then
    if hasGenerator then
      if optStrTruthy c.prompt then
        let t := { base with
          prompt := c.prompt,
          aspect_ratio := some (c.aspect_ratio.getD "1:1") }
        (some t.id,
         { tasks := tasksInsert st.tasks t.id t, queue := st.queue ++ [t.id] },
         fs)
      else (none, st, fs)         -- ValueError: prompt required, caught
    else (none, st, fs)           -- ValueError: generator not configured, caught
  else (none, st, fs)             -- ValueError: unknown task type, caught

/-- `UploadQueueManager.get_tasks_for_user` inner loop (lines 126-132):
`.error ()` models the `KeyError` raised by `task['file_path']` when the
record has no such key (every Generate task). -/
def getTasksLoop (fs : FS) (user_id : Int) :
    List (String × QTask) → List QTask → Except Unit (List QTask)
  | [], acc => .ok acc.reverse
  | (_, t) :: rest, acc =>
    if String.mk (pyStrInt t.user_id) = String.mk (pyStrInt user_id) then
      match t.file_path with
      | none => .error ()
      | some fp =>
        if fp ∈ fs then getTasksLoop fs user_id rest (t :: acc)
        else getTasksLoop fs user_id rest acc
    else getTasksLoop fs user_id rest acc

def get_tasks_for_user (fs : FS) (st : QMState) (user_id : Int) :
    Except Unit (List QTask) :=
  getTasksLoop fs user_id st.tasks []

/-! ## The worker loop (`UploadQueueManager._process_queue` and the two
dispatch handlers).  The classifier is passed in as a function
`FS → String → AnalyzeResult × FS` (it may delete the analysed file, as the
safety branch of `analyze_image` does); the generator as a function of the
prompt, aspect ratio and user id.  A handler result of `none` models an
exception escaping the handler into the outer `except BaseException`
(e.g. the `KeyError` of `task['file_path']` / `task['prompt']`, or a
missing `vertex_generator`). -/

/-- `UploadQueueManager._handle_analysis_processing` (lines 189-247),
including its `finally` cleanup of the staged copy on failure. -/
def handle_analysis (analyze : FS → String → AnalyzeResult × FS)
    (fs : FS) (task : QTask) : Option (QTask × FS) :=
  match task.file_path with
  | none => none
  | some file_path =>
    if file_path ∈ fs then
      let t1 := { task with status := "processing" }
      let (result, fs1) := analyze fs file_path
      if result.success && dataTruthy result.data then
        -- finally: status is not 'failed', staged copy kept
        some ({ t1 with status := "completed", result := result.data }, fs1)
      else
        let t2 := { t1 with
          status := "failed",
          error := some (result.error.getD "UNKNOWN_ANALYSIS_ERROR"),
          critical_stop := some result.critical_stop }
        -- delete the original upload-side file to prevent publishing
        let fs2 := match task.source_file_path with
          | some sp => if sp ∈ fs1 then FS.remove fs1 sp else fs1
          | none => fs1
        -- finally: failed, remove the staged queue copy
        some (t2, FS.remove fs2 file_path)
    else
      -- staged file vanished: fail the task; the finally clause finds no
      -- file to remove, and the source file is not touched on this path
      some ({ task with
        status := "failed", error := some "FILE_NOT_FOUND_IN_STORAGE" }, fs)

/-- The result dictionary of `VertexGenerator.generate_image`. -/
structure GenResult where
  success : Bool
  filename : Option String := none
  error : Option String := none
  critical_stop : Bool := false

/-- `UploadQueueManager._handle_generation_processing` (lines 249-276). -/
def handle_generation (generate : Option (String → String → Int → GenResult))
    (task : QTask) : Option QTask :=
  match generate, task.prompt, task.aspect_ratio with
  | some gen, some prompt, some ar =>
    let t1 := { task with status := "processing" }
    let r := gen prompt ar task.user_id
    if r.success && optStrTruthy r.filename then
      some { t1 with
        status := "completed",
        result := some (Json.obj [("generated_filename",
          Json.str (r.filename.getD ""))]) }
    else
      some { t1 with
        status := "failed",
        error := some (r.error.getD "UNKNOWN_GENERATION_ERROR"),
        critical_stop := some r.critical_stop }
  | _, _, _ => none

/-- The crash-recovery block of `_process_queue` (lines 171-182): the task is
force-failed unless already failed, and the error code is overwritten with
`WORKER_CRASH`.  The task looked up in `self.tasks` is the dequeued task
itself: `add_to_queue` inserts every enqueued task into the store and no
code path ever removes store entries, so the lookup always succeeds. -/
def recoverCrash (t : QTask) : QTask :=
  let t1 := if t.status ≠ "failed" then { t with status := "failed" } else t
  { t1 with error := some "WORKER_CRASH" }

/-- The dispatch of one dequeued task by type (lines 157-161): anything that
is not `'generate'` is treated as an analysis task. -/
def dispatchTask (analyze : FS → String → AnalyzeResult × FS)
    (generate : Option (String → String → Int → GenResult))
    (fs : FS) (t : QTask) : Option (QTask × FS) :=
  if t.type = "generate" then
    (handle_generation generate t).map (fun t' => (t', fs))
  else
    handle_analysis analyze fs t

/-- Where a `BaseException` interrupts the `try` body of one loop iteration.
`afterProcessingMark` is the window after the handler has marked the task
`processing`; `afterDispatch` is the window between the handler's return and
the end of the rate-limit sleep. -/
inductive CrashPoint where
  | beforeDispatch : CrashPoint
  | afterProcessingMark : CrashPoint
  | afterDispatch : CrashPoint

/-- The event of one worker-loop iteration: either the `try` body runs to
completion, or a `BaseException` interrupts it at the given point. -/
inductive IterEvent where
  | ok : IterEvent
  | crash (p : CrashPoint) : IterEvent

/-- The outcome of one iteration: the final task record, the filesystem, and
whether the `finally` acknowledged the queue item (`task_done`) and whether
the crash-recovery `except` branch ran. -/
structure IterResult where
  task : QTask
  fs : FS
  acked : Bool
  crashed : Bool

/-- One iteration of `_process_queue` on a dequeued task (lines 150-187):
dispatch inside a catch-everything block; on any exception the in-flight
task is force-failed with `WORKER_CRASH`; the `finally` always acknowledges
the item. -/
def processIteration (analyze : FS → String → AnalyzeResult × FS)
    (generate : Option (String → String → Int → GenResult))
    (fs : FS) (t : QTask) (ev : IterEvent) : IterResult :=
  match ev with
  | .crash .beforeDispatch => ⟨recoverCrash t, fs, true, true⟩
  | .crash .afterProcessingMark =>
      ⟨recoverCrash { t with status := "processing" }, fs, true, true⟩
  | .crash .afterDispatch =>
      match dispatchTask analyze generate fs t with
      | some (t', fs') => ⟨recoverCrash t', fs', true, true⟩
      | none => ⟨recoverCrash t, fs, true, true⟩
  | .ok =>
      match dispatchTask analyze generate fs t with
      | some (t', fs') => ⟨t', fs', true, false⟩
      | none => ⟨recoverCrash t, fs, true, true⟩

/-- The worker loop run over a finite schedule of dequeued tasks and their
iteration events; each enqueued task is dequeued exactly once. -/
def runWorker (analyze : FS → String → AnalyzeResult × FS)
    (generate : Option (String → String → Int → GenResult)) :
    FS → List (QTask × IterEvent) → List IterResult × FS
  | fs, [] => ([], fs)
  | fs, (t, ev) :: rest =>
    let r := processIteration analyze generate fs t ev
    let (rs, fs') := runWorker analyze generate r.fs rest
    (r :: rs, fs')

/-! ## Credential rotation (`photoshop/visual.py`, `VisualRecognizer`).
The pool is the deduplicated key list; `numKeys` is its length.  The
`rotations` field counts the calls to `_rotate_key` that changed the index
(every call when the pool has more than one key). -/

/-- The rotation-relevant state of the recognizer plus the per-call local
`keys_tried_in_session` counter. -/
structure RotState where
  idx : Nat
  reqCount : Nat
  tried : Nat
  rotations : Nat

/-- `VisualRecognizer._rotate_key` (lines 110-116): round-robin advance and
request-counter reset when more than one key exists, otherwise a no-op. -/
def rotate_key (numKeys : Nat) (s : RotState) : RotState :=
  if 1 < numKeys then
    { s with
      idx := (s.idx + 1) % numKeys, reqCount := 0,
      rotations := s.rotations + 1 }
  else s

/-- The quota/availability branch of the retry loop in `analyze_image`
(lines 212-231): rotate, bump `keys_tried_in_session`, and when it reaches
`max(1, len(api_keys))` take the back-off sleep and reset the counter.  The
returned flag records whether the back-off sleep path was taken while
handling this error. -/
def quotaErrorStep (numKeys : Nat) (s : RotState) : RotState × Bool :=
  let s1 := rotate_key numKeys s
  let tried := s.tried + 1
  if max 1 numKeys ≤ tried then ({ s1 with tried := 0 }, true)
  else ({ s1 with tried := tried }, false)

/-- `n` consecutive quota-exhaustion errors inside one `analyze_image` call:
the final state and the per-error back-off flags in order. -/
def quotaErrors (numKeys : Nat) (s : RotState) : Nat → RotState × List Bool
  | 0 => (s, [])
  | n + 1 =>
    let (s1, f) := quotaErrorStep numKeys s
    let (s2, fs) := quotaErrors numKeys s1 n
    (s2, f :: fs)

/-! ## Rate-limit timing of the worker loop (lines 151-182).  Durations are
rationals (seconds).  In an iteration the external call begins the dispatch
(the preceding file-existence check is instantaneous), so the classifier
invocation time of iteration `i` is the iteration's start time. -/

/-- Wall-clock behaviour of one iteration: the elapsed dispatch time and
whether the crash path ran (in which case the rate-limit sleep is replaced
by the fixed 1-second recovery delay). -/
structure IterTiming where
  dispatch : ℚ
  crashed : Bool

/-- Total duration of one iteration: the dispatch plus either the remainder
of the rate-limit interval (`if elapsed_time < rate_limit_seconds`) or the
crash path's 1-second delay. -/
def iterDuration (rate : ℚ) (it : IterTiming) : ℚ :=
  if it.crashed then it.dispatch + 1
  else it.dispatch + (if it.dispatch < rate then rate - it.dispatch else 0)

/-- Start time of the `i`-th iteration of the worker loop (iteration 0
starts at time 0). -/
def startTime (rate : ℚ) (its : Nat → IterTiming) : Nat → ℚ
  | 0 => 0
  | n + 1 => startTime rate its n + iterDuration rate (its n)

/-! ## Concrete instances used by counterexamples and witnesses. -/

/-- A classifier response text containing two complete JSON objects with
prose between them. -/
def exTwoObjText : List Char := "\x7b\"a\": 1\x7d x \x7b\"b\": 2\x7d".data

/-- A well-behaved classifier oracle: success with a non-empty data dict,
no filesystem effect. -/
def exGoodAnalyze : FS → String → AnalyzeResult × FS := fun fs _ =>
  ({ success := true, data := some (Json.obj [("category", Json.str "Nature")]) }, fs)

/-- A policy-rejection classifier oracle, modelling the safety branch of
`analyze_image`: it deletes the analysed file and reports a critical
stop. -/
def exPolicyAnalyze : FS → String → AnalyzeResult × FS := fun fs p =>
  ({ success := false, error := some "SECURITY ALERT: HARM_CATEGORY_X: HIGH",
     critical_stop := true }, FS.remove fs p)

/-- A queued analysis task whose staged copy is `/queue/1000_7_img.jpg` and
whose original upload is `/tmp/img.jpg`. -/
def exAnalyzeTask : QTask :=
  { id := "7_1000", user_id := 7, type := "analyze", status := "queued",
    file_path := some "/queue/1000_7_img.jpg",
    source_file_path := some "/tmp/img.jpg" }

/-- A completed generation task for user 7 (generation tasks have no
`file_path` key). -/
def exGenerateTask : QTask :=
  { id := "7_2000", user_id := 7, type := "generate", status := "completed",
    prompt := some "a forest", aspect_ratio := some "1:1",
    result := some (Json.obj [("generated_filename", Json.str "gen.png")]) }

/-- A constant iteration-timing schedule: every dispatch takes one second
and returns normally. -/
def exTiming : Nat → IterTiming := fun _ => ⟨1, false⟩

/-- An iteration-timing schedule whose first iteration takes one second and
ends in the crash-recovery path; every later dispatch takes one second and
returns normally. -/
def exCrashTiming : Nat → IterTiming :=
  fun n => if n = 0 then ⟨1, true⟩ else ⟨1, false⟩

/-! ## One attempt of the photoshop `analyze_image` retry loop
(lines 136-237): the upstream call either returns a response (possibly
safety-blocked) or raises; a quota-like exception rotates and retries, any
other outcome returns to the caller.  The safety branch's file deletion is
a filesystem effect not tracked in this rotation model (it is covered by
the worker-side model via the `analyze` oracle). -/

/-- The observable outcome of one `generate_content` attempt. -/
inductive Outcome where
  | response (safety : Bool) (text : List Char) : Outcome
  | exn (quotaLike : Bool) (msg : String) : Outcome

/-- One iteration of the `while True` retry loop: the updated recognizer
state, the value returned to the caller (`none` means the loop continues
with a retry), and whether the back-off sleep path was taken. -/
def attemptStep (numKeys : Nat) (s : RotState) (o : Outcome) :
    RotState × Option AnalyzeResult × Bool :=
  match o with
  | .response true _ =>
    (s, some { success := false, error := some "SECURITY ALERT",
               critical_stop := true }, false)
  | .response false text =>
    let r := parseAnalysisText text
    -- request_count += 1 only on a successfully parsed response
    let s1 := if r.success then { s with reqCount := s.reqCount + 1 } else s
    (s1, some r, false)
  | .exn true _ =>
    let (s1, slept) := quotaErrorStep numKeys s
    (s1, none, slept)
  | .exn false msg =>
    (s, some { success := false, error := some msg }, false)

/-- The numeric value of a little-endian digit list (used to relate
`natDigitsAux` back to the number it renders). -/
def digitsVal : List Nat → Nat
  | [] => 0
  | d :: ds => d + 10 * digitsVal ds

/-- An enqueue call for user 5 staging `/tmp/a.jpg`. -/
def exAddCall : AddCall :=
  { task_type := "analyze", user_id := 5, source_file_path := some "/tmp/a.jpg" }

/-- A first enqueue at millisecond 1000 on an empty manager. -/
def exAdd1 : Option String × QMState × FS :=
  add_to_queue "/queue" true false false ["/tmp/a.jpg"] ⟨[], []⟩ 1000 exAddCall

/-- A second, distinct enqueue call in the same millisecond, on the state
left by the first. -/
def exAdd2 : Option String × QMState × FS :=
  add_to_queue "/queue" true false false exAdd1.2.2 exAdd1.2.1 1000 exAddCall

/-- A task store holding one completed generation task of user 7. -/
def exStore : QMState := { tasks := [("7_2000", exGenerateTask)], queue := [] }

/-! # Theorems -/

/-! ## Credential rotation (claim C3) -/

theorem quotaErrors_succ (k n : Nat) (s : RotState) :
    quotaErrors k s (n + 1) =
      ((quotaErrors k (quotaErrorStep k s).1 n).1,
       (quotaErrorStep k s).2 :: (quotaErrors k (quotaErrorStep k s).1 n).2) := rfl

/-- One quota error with more than one key: rotate, and sleep exactly when
the bumped counter reaches the pool size. -/
theorem quotaErrorStep_eq (k : Nat) (hk : 1 < k) (s : RotState)
    (htried : s.tried < k) :
    quotaErrorStep k s =
      ({ idx := (s.idx + 1) % k, reqCount := 0, tried := (s.tried + 1) % k,
         rotations := s.rotations + 1 }, decide ((s.tried + 1) % k = 0)) := by
  have hmax : max 1 k = k := Nat.max_eq_right (Nat.le_of_lt hk)
  unfold quotaErrorStep rotate_key
  rw [if_pos hk, hmax]
  by_cases h : k ≤ s.tried + 1
  · have h1 : s.tried + 1 = k := Nat.le_antisymm (Nat.succ_le_of_lt htried) h
    simp [h, h1]
  · have h2 : (s.tried + 1) % k = s.tried + 1 :=
      Nat.mod_eq_of_lt (Nat.lt_of_not_le h)
    have h3 : ¬ ((s.tried + 1) % k = 0) := by
      rw [h2]; exact Nat.succ_ne_zero _
    simp [h, h2, h3]

/-- Closed form of a run of consecutive quota errors for a pool of more
than one key: the index advances round-robin, the session counter cycles
modulo the pool size, every error rotates, and the back-off sleep fires on
exactly the errors whose ordinal is a multiple of the pool size. -/
theorem quotaErrors_closed (k : Nat) (hk : 1 < k) :
    ∀ (n : Nat) (s : RotState), s.idx < k → s.tried < k →
      (quotaErrors k s n).1.idx = (s.idx + n) % k ∧
      (quotaErrors k s n).1.tried = (s.tried + n) % k ∧
      (quotaErrors k s n).1.rotations = s.rotations + n ∧
      (quotaErrors k s n).2 =
        (List.range n).map (fun j => decide ((s.tried + j + 1) % k = 0)) := by
  intro n
  induction n with
  | zero =>
    intro s hidx htried
    simp [quotaErrors, Nat.mod_eq_of_lt hidx, Nat.mod_eq_of_lt htried]
  | succ n ih =>
    intro s hidx htried
    have hk0 : 0 < k := Nat.lt_of_lt_of_le Nat.one_pos (Nat.le_of_lt hk)
    rw [quotaErrors_succ, quotaErrorStep_eq k hk s htried]
    have hidx1 : (s.idx + 1) % k < k := Nat.mod_lt _ hk0
    have htried1 : (s.tried + 1) % k < k := Nat.mod_lt _ hk0
    have ihs := ih { idx := (s.idx + 1) % k, reqCount := 0,
                     tried := (s.tried + 1) % k, rotations := s.rotations + 1 }
                   hidx1 htried1
    refine ⟨?_, ?_, ?_, ?_⟩
    · rw [ihs.1]
      show ((s.idx + 1) % k + n) % k = (s.idx + (n + 1)) % k
      rw [Nat.mod_add_mod]
      congr 1
      omega
    · rw [ihs.2.1]
      show ((s.tried + 1) % k + n) % k = (s.tried + (n + 1)) % k
      rw [Nat.mod_add_mod]
      congr 1
      omega
    · rw [ihs.2.2.1]
      show s.rotations + 1 + n = s.rotations + (n + 1)
      omega
    · rw [ihs.2.2.2]
      show _ :: _ = (List.range (n + 1)).map (fun j => decide ((s.tried + j + 1) % k = 0))
      rw [List.range_succ_eq_map]
      rw [List.map_cons, List.map_map]
      congr 1
      congr 1
      funext j
      show decide (((s.tried + 1) % k + j + 1) % k = 0) =
        decide ((s.tried + (j + 1) + 1) % k = 0)
      congr 2
      rw [Nat.add_assoc ((s.tried + 1) % k) j 1, Nat.mod_add_mod]
      congr 1
      omega

/-- C3, counterexample.  Pool of k = 2 keys, fresh call (session counter 0),
three consecutive quota-exhaustion errors.  After the first two (= k)
errors the index is back at its start with exactly 2 rotations, as the
claim states; but the back-off flags of the three errors are
`[false, true, false]`: the back-off sleep fires while handling the 2nd
(k-th) error, and the 3rd ((k+1)-th) error performs an immediate 3rd
rotation with no back-off sleep — the claim predicts the opposite
(no sleep on the k-th, sleep instead of rotation on the (k+1)-th). -/
theorem C3_counterexample :
    (quotaErrors 2 ⟨0, 0, 0, 0⟩ 2).1.idx = 0 ∧
    (quotaErrors 2 ⟨0, 0, 0, 0⟩ 2).1.rotations = 2 ∧
    (quotaErrors 2 ⟨0, 0, 0, 0⟩ 3).2 = [false, true, false] ∧
    (quotaErrors 2 ⟨0, 0, 0, 0⟩ 3).1.rotations = 3 := by
  decide

/-- C3 (amended): for a pool of k>1 keys, k consecutive quota-exhaustion
errors inside one `analyze_image` call rotate the active credential index
back to its starting value after exactly k rotations; the back-off sleep
path is triggered while handling the k-th consecutive exhaustion (right
after its rotation, when the session counter reaches the pool size), not
the (k+1)-th, and the (k+1)-th consecutive exhaustion performs an
immediate (k+1)-th rotation with no back-off sleep (the counter having
been reset by the k-th error's back-off). -/
theorem C3_rotation_wrap (k i0 rc r0 : Nat) (hk : 1 < k) (hi : i0 < k) :
    (quotaErrors k ⟨i0, rc, 0, r0⟩ k).1.idx = i0 ∧
    (quotaErrors k ⟨i0, rc, 0, r0⟩ k).1.rotations = r0 + k ∧
    (∀ j, j + 1 < k → (quotaErrors k ⟨i0, rc, 0, r0⟩ k).2.get? j = some false) ∧
    (quotaErrors k ⟨i0, rc, 0, r0⟩ k).2.get? (k - 1) = some true ∧
    (quotaErrors k ⟨i0, rc, 0, r0⟩ (k + 1)).2.get? k = some false ∧
    (quotaErrors k ⟨i0, rc, 0, r0⟩ (k + 1)).1.rotations = r0 + (k + 1) := by
  have hk0 : 0 < k := Nat.lt_of_lt_of_le Nat.one_pos (Nat.le_of_lt hk)
  have h1 := quotaErrors_closed k hk k ⟨i0, rc, 0, r0⟩ hi hk0
  have h2 := quotaErrors_closed k hk (k + 1) ⟨i0, rc, 0, r0⟩ hi hk0
  refine ⟨?_, ?_, ?_, ?_, ?_, ?_⟩
  · rw [h1.1]
    show (i0 + k) % k = i0
    rw [Nat.add_mod_right, Nat.mod_eq_of_lt hi]
  · exact h1.2.2.1
  · intro j hj
    rw [h1.2.2.2, List.get?_map, List.get?_range (by omega : j < k)]
    show some (decide ((0 + j + 1) % k = 0)) = some false
    have hjj : (0 + j + 1) % k = j + 1 := by
      rw [Nat.zero_add]
      exact Nat.mod_eq_of_lt hj
    rw [hjj]
    simp
  · rw [h1.2.2.2, List.get?_map, List.get?_range (by omega : k - 1 < k)]
    show some (decide ((0 + (k - 1) + 1) % k = 0)) = some true
    have hkk : (0 + (k - 1) + 1) % k = 0 := by
      have h0 : 0 + (k - 1) + 1 = k := by omega
      rw [h0, Nat.mod_self]
    rw [hkk]
    simp
  · rw [h2.2.2.2, List.get?_map, List.get?_range (by omega : k < k + 1)]
    show some (decide ((0 + k + 1) % k = 0)) = some false
    have hk1 : (0 + k + 1) % k = 1 := by
      rw [Nat.zero_add, Nat.add_comm k 1, Nat.add_mod_right]
      exact Nat.mod_eq_of_lt hk
    rw [hk1]
    simp
  · exact h2.2.2.1

/-- Witness for `C3_rotation_wrap` at k = 3, starting index 2. -/
theorem C3_rotation_wrap_witness :
    (quotaErrors 3 ⟨2, 5, 0, 7⟩ 3).1.idx = 2 ∧
    (quotaErrors 3 ⟨2, 5, 0, 7⟩ 3).1.rotations = 7 + 3 ∧
    (quotaErrors 3 ⟨2, 5, 0, 7⟩ 3).2.get? 2 = some true ∧
    (quotaErrors 3 ⟨2, 5, 0, 7⟩ 4).2.get? 3 = some false :=
  have h := C3_rotation_wrap 3 2 5 7 (by decide) (by decide)
  ⟨h.1, h.2.1, h.2.2.2.1, h.2.2.2.2.1⟩

/-! ## The parse branch of `analyze_image` (claim C9) -/

/-- C9, counterexample.  The stripped response text `exTwoObjText` contains
two complete JSON objects with prose between them; its first JSON object is
the singleton mapping of "a" to 1.  The claim says `analyze_image` extracts that
first object and returns it as the success payload; but the greedy regex
`\x7b.*\x7d` matches from the first opening brace to the last closing brace, so
`json.loads` is applied to the whole span, fails, and the call returns the
parse-failure error instead of any success payload. -/
theorem C9_counterexample :
    firstJsonObject (pyStrip exTwoObjText) = some (Json.obj [("a", Json.num 1)]) ∧
    (parseAnalysisText exTwoObjText).success = false ∧
    (parseAnalysisText exTwoObjText).error = some "JSON Error" :=
  ⟨rfl, by decide, by decide⟩

/-- C9 (amended): for every non-policy-blocked classifier response text,
`analyze_image` extracts the span from the first opening brace to the last
closing brace of the stripped text (the greedy `re.search(r'\x7b.*\x7d', ...)`
match, which coincides with the first JSON object only when no braces
follow it); when that span parses as a JSON object the call lower-cases its
top-level keys and returns the mapping as the success payload; when no such
span exists, or the span fails to parse, the call returns a failure with a
distinguishable error code ("No JSON found in response" / the JSON-decode
error) to the caller without rotating credentials and without entering the
back-off sleep. -/
theorem C9_parse_branch (k : Nat) (s : RotState) (text : List Char) :
    (attemptStep k s (.response false text)).1.idx = s.idx ∧
    (attemptStep k s (.response false text)).1.rotations = s.rotations ∧
    (attemptStep k s (.response false text)).2.1 = some (parseAnalysisText text) ∧
    (attemptStep k s (.response false text)).2.2 = false ∧
    (braceSpan (pyStrip text) = none →
        parseAnalysisText text =
          { success := false, error := some "No JSON found in response" }) ∧
    (∀ span kvs, braceSpan (pyStrip text) = some span →
        jsonLoads span = some (Json.obj kvs) →
        parseAnalysisText text =
          { success := true, data := some (Json.obj (lowerKeys kvs)) }) ∧
    (∀ span, braceSpan (pyStrip text) = some span → jsonLoads span = none →
        parseAnalysisText text = { success := false, error := some "JSON Error" }) := by
  refine ⟨?_, ?_, ?_, ?_, ?_, ?_, ?_⟩
  · unfold attemptStep
    dsimp only
    by_cases h : (parseAnalysisText text).success
    · simp [h]
    · simp [h]
  · unfold attemptStep
    dsimp only
    by_cases h : (parseAnalysisText text).success
    · simp [h]
    · simp [h]
  · rfl
  · rfl
  · intro h
    unfold parseAnalysisText
    dsimp only
    rw [h]
  · intro span kvs h hj
    unfold parseAnalysisText
    dsimp only
    rw [h]
    dsimp only
    rw [hj]
  · intro span h hj
    unfold parseAnalysisText
    dsimp only
    rw [h]
    dsimp only
    rw [hj]

/-- Witness for `C9_parse_branch` on the two-object response text. -/
theorem C9_parse_branch_witness :
    (attemptStep 5 ⟨1, 0, 0, 0⟩ (.response false exTwoObjText)).2.1 =
      some (parseAnalysisText exTwoObjText) ∧
    (attemptStep 5 ⟨1, 0, 0, 0⟩ (.response false exTwoObjText)).1.idx = 1 ∧
    parseAnalysisText exTwoObjText =
      { success := false, error := some "JSON Error" } :=
  have h := C9_parse_branch 5 ⟨1, 0, 0, 0⟩ exTwoObjText
  ⟨h.2.2.1, h.1, h.2.2.2.2.2.2 exTwoObjText rfl rfl⟩

/-! ## Task-id uniqueness (claim C8).  The decimal renderings used by the
id f-string contain no underscore, so the id splits uniquely at its
underscore; the renderings themselves are injective. -/
theorem digitsVal_natDigitsAux : ∀ (fuel n : Nat), n ≤ fuel →
    digitsVal (natDigitsAux fuel n) = n := by
  intro fuel
  induction fuel with
  | zero =>
    intro n hn
    have : n = 0 := Nat.le_zero.mp hn
    subst this
    rfl
  | succ f ih =>
    intro n hn
    by_cases h : n = 0
    · subst h; simp [natDigitsAux, digitsVal]
    · have hdiv : n / 10 ≤ f := by omega
      simp only [natDigitsAux, h, if_false, digitsVal]
      rw [ih _ hdiv]
      omega

theorem natDigitsAux_lt_ten : ∀ (fuel n : Nat) (d : Nat),
    d ∈ natDigitsAux fuel n → d < 10 := by
  intro fuel
  induction fuel with
  | zero => intro n d hd; simp [natDigitsAux] at hd
  | succ f ih =>
    intro n d hd
    by_cases h : n = 0
    · subst h; simp [natDigitsAux] at hd
    · simp only [natDigitsAux, h, if_false, List.mem_cons] at hd
      rcases hd with h1 | h2
      · subst h1; exact Nat.mod_lt _ (by omega)
      · exact ih _ _ h2

theorem digitChar10_inj (a b : Nat) (ha : a < 10) (hb : b < 10)
    (h : digitChar10 a = digitChar10 b) : a = b := by
  interval_cases a <;> interval_cases b <;> simp_all [digitChar10]

theorem digitChar10_ne_special (d : Nat) :
    digitChar10 d ≠ '_' ∧ digitChar10 d ≠ '-' := by
  by_cases h : d < 10
  · interval_cases d <;> exact ⟨by decide, by decide⟩
  · unfold digitChar10
    rw [List.getD_eq_default _ _ (by simpa using Nat.le_of_not_lt h)]
    exact ⟨by decide, by decide⟩

theorem map_digitChar10_inj : ∀ (l1 l2 : List Nat),
    (∀ d ∈ l1, d < 10) → (∀ d ∈ l2, d < 10) →
    l1.map digitChar10 = l2.map digitChar10 → l1 = l2 := by
  intro l1
  induction l1 with
  | nil =>
    intro l2 _ _ h
    cases l2 with
    | nil => rfl
    | cons x xs => simp at h
  | cons x xs ih =>
    intro l2 h1 h2 h
    cases l2 with
    | nil => simp at h
    | cons y ys =>
      simp only [List.map_cons, List.cons.injEq] at h
      have hx : x = y := digitChar10_inj x y (h1 x (by simp)) (h2 y (by simp)) h.1
      have hxs : xs = ys := ih ys (fun d hd => h1 d (by simp [hd]))
        (fun d hd => h2 d (by simp [hd])) h.2
      rw [hx, hxs]

theorem natDigitsLE_ne_nil (n : Nat) (h : n ≠ 0) : natDigitsLE n ≠ [] := by
  cases n with
  | zero => exact absurd rfl h
  | succ m =>
    show natDigitsAux (m + 1) (m + 1) ≠ []
    simp [natDigitsAux]

theorem pyStrNat_inj (n m : Nat) (h : pyStrNat n = pyStrNat m) : n = m := by
  unfold pyStrNat at h
  by_cases hn : n = 0 <;> by_cases hm : m = 0
  · omega
  · exfalso
    rw [if_pos hn, if_neg hm] at h
    have hdig : ∀ d ∈ (natDigitsLE m).reverse, d < 10 := by
      intro d hd
      exact natDigitsAux_lt_ten m m d (List.mem_reverse.mp hd)
    have h0 : ([0] : List Nat).map digitChar10 = ['0'] := by decide
    rw [← h0] at h
    have := map_digitChar10_inj [0] (natDigitsLE m).reverse
      (by intro d hd; simp at hd; omega) hdig h
    have hv : digitsVal (natDigitsLE m) = m := digitsVal_natDigitsAux m m (Nat.le_refl m)
    have : natDigitsLE m = [0] := by
      have hrev := congrArg List.reverse this
      simpa using hrev.symm
    rw [this] at hv
    simp [digitsVal] at hv
    omega
  · exfalso
    rw [if_neg hn, if_pos hm] at h
    have hdig : ∀ d ∈ (natDigitsLE n).reverse, d < 10 := by
      intro d hd
      exact natDigitsAux_lt_ten n n d (List.mem_reverse.mp hd)
    have h0 : ([0] : List Nat).map digitChar10 = ['0'] := by decide
    rw [← h0] at h
    have := map_digitChar10_inj (natDigitsLE n).reverse [0] hdig
      (by intro d hd; simp at hd; omega) h
    have hv : digitsVal (natDigitsLE n) = n := digitsVal_natDigitsAux n n (Nat.le_refl n)
    have : natDigitsLE n = [0] := by
      have hrev := congrArg List.reverse this
      simpa using hrev
    rw [this] at hv
    simp [digitsVal] at hv
    omega
  · rw [if_neg hn, if_neg hm] at h
    have hd1 : ∀ d ∈ (natDigitsLE n).reverse, d < 10 := by
      intro d hd; exact natDigitsAux_lt_ten n n d (List.mem_reverse.mp hd)
    have hd2 : ∀ d ∈ (natDigitsLE m).reverse, d < 10 := by
      intro d hd; exact natDigitsAux_lt_ten m m d (List.mem_reverse.mp hd)
    have := map_digitChar10_inj _ _ hd1 hd2 h
    have hrev := congrArg List.reverse this
    simp only [List.reverse_reverse] at hrev
    have hv1 : digitsVal (natDigitsLE n) = n := digitsVal_natDigitsAux n n (Nat.le_refl n)
    have hv2 : digitsVal (natDigitsLE m) = m := digitsVal_natDigitsAux m m (Nat.le_refl m)
    rw [← hv1, ← hv2, hrev]

theorem pyStrNat_chars (n : Nat) : ∀ c ∈ pyStrNat n, c ≠ '_' ∧ c ≠ '-' := by
  intro c hc
  unfold pyStrNat at hc
  by_cases hn : n = 0
  · rw [if_pos hn] at hc
    simp at hc
    subst hc
    exact ⟨by decide, by decide⟩
  · rw [if_neg hn] at hc
    rcases List.mem_map.mp hc with ⟨d, _, hd2⟩
    rw [← hd2]
    exact digitChar10_ne_special d

theorem pyStrNat_ne_nil (n : Nat) : pyStrNat n ≠ [] := by
  unfold pyStrNat
  by_cases hn : n = 0
  · rw [if_pos hn]; simp
  · rw [if_neg hn]
    intro h
    have := natDigitsLE_ne_nil n hn
    simp only [List.map_eq_nil, List.reverse_eq_nil_iff] at h
    exact this h

theorem pyStrInt_chars (u : Int) : ∀ c ∈ pyStrInt u, c ≠ '_' := by
  intro c hc
  cases u with
  | ofNat n => exact (pyStrNat_chars n c hc).1
  | negSucc m =>
    simp only [pyStrInt, List.mem_cons] at hc
    rcases hc with h | h
    · subst h; decide
    · exact (pyStrNat_chars (m + 1) c h).1

theorem pyStrInt_inj (u v : Int) (h : pyStrInt u = pyStrInt v) : u = v := by
  cases u with
  | ofNat n =>
    cases v with
    | ofNat m => exact congrArg Int.ofNat (pyStrNat_inj n m h)
    | negSucc m =>
      exfalso
      have hne := pyStrNat_ne_nil n
      rcases hcs : pyStrNat n with _ | ⟨c, cs⟩
      · exact hne hcs
      · have hc : c ∈ pyStrNat n := by
          rw [hcs]; exact List.mem_cons_self _ _
        have hnd := (pyStrNat_chars n c hc).2
        have h' : c :: cs = '-' :: pyStrNat (m + 1) := by
          rw [← hcs]; exact h
        injection h' with h1 h2
        exact hnd h1
  | negSucc n =>
    cases v with
    | ofNat m =>
      exfalso
      have hne := pyStrNat_ne_nil m
      rcases hcs : pyStrNat m with _ | ⟨c, cs⟩
      · exact hne hcs
      · have hc : c ∈ pyStrNat m := by
          rw [hcs]; exact List.mem_cons_self _ _
        have hnd := (pyStrNat_chars m c hc).2
        have h' : '-' :: pyStrNat (n + 1) = c :: cs := by
          rw [← hcs]; exact h
        injection h' with h1 h2
        exact hnd h1.symm
    | negSucc m =>
      have h' : '-' :: pyStrNat (n + 1) = '-' :: pyStrNat (m + 1) := h
      injection h' with h1 h2
      have hnm := pyStrNat_inj (n + 1) (m + 1) h2
      have : n = m := by omega
      rw [this]

theorem sep_split : ∀ (a1 a2 b1 b2 : List Char),
    (∀ c ∈ a1, c ≠ '_') → (∀ c ∈ a2, c ≠ '_') →
    a1 ++ '_' :: b1 = a2 ++ '_' :: b2 → a1 = a2 ∧ b1 = b2 := by
  intro a1
  induction a1 with
  | nil =>
    intro a2 b1 b2 _ h2 h
    cases a2 with
    | nil =>
      simp only [List.nil_append] at h
      injection h with h1 h2
      exact ⟨rfl, h2⟩
    | cons y ys =>
      exfalso
      simp only [List.nil_append, List.cons_append] at h
      injection h with hh _
      exact h2 y (List.mem_cons_self _ _) hh.symm
  | cons x xs ih =>
    intro a2 b1 b2 h1 h2 h
    cases a2 with
    | nil =>
      exfalso
      simp only [List.cons_append, List.nil_append] at h
      injection h with hh _
      exact h1 x (List.mem_cons_self _ _) hh
    | cons y ys =>
      simp only [List.cons_append] at h
      injection h with hh ht
      have := ih ys b1 b2 (fun c hc => h1 c (List.mem_cons_of_mem _ hc))
        (fun c hc => h2 c (List.mem_cons_of_mem _ hc)) ht
      exact ⟨by rw [hh, this.1], this.2⟩

theorem taskId_inj (u1 u2 : Int) (t1 t2 : Nat)
    (h : taskId u1 t1 = taskId u2 t2) : u1 = u2 ∧ t1 = t2 := by
  unfold taskId at h
  have hlist : pyStrInt u1 ++ '_' :: pyStrNat t1 = pyStrInt u2 ++ '_' :: pyStrNat t2 := by
    injection h
  have := sep_split (pyStrInt u1) (pyStrInt u2) (pyStrNat t1) (pyStrNat t2)
    (pyStrInt_chars u1) (pyStrInt_chars u2) hlist
  exact ⟨pyStrInt_inj u1 u2 this.1, pyStrNat_inj t1 t2 this.2⟩

/-- C8, counterexample.  Two distinct `add_to_queue` calls — the second
made on the state left by the first — by the same user (5) in the same
millisecond (1000) both return a task id, and the ids are identical: the
id derived from owning-user id and millisecond timestamp is not unique per
enqueue.  The second call's record overwrites the first's in the store
(one entry remains). -/
theorem C8_counterexample :
    exAdd1.1.isSome = true ∧ exAdd2.1.isSome = true ∧ exAdd1.1 = exAdd2.1 ∧
    exAdd2.2.1.tasks.length = 1 := by
  decide

/-- C8 (amended): two calls to `add_to_queue` that both return a task id
return distinct ids provided they differ in owning-user id or in the
millisecond timestamp of the call; the id is unique per (owner,
millisecond) pair by construction, but two enqueues by the same owner
within the same millisecond collide. -/
theorem C8_id_unique_per_pair (u1 u2 : Int) (t1 t2 : Nat)
    (h : ¬(u1 = u2 ∧ t1 = t2)) : taskId u1 t1 ≠ taskId u2 t2 :=
  fun he => h (taskId_inj u1 u2 t1 t2 he)

/-- Witness for `C8_id_unique_per_pair`: same user, different
milliseconds. -/
theorem C8_id_unique_witness :
    ¬((5 : Int) = 5 ∧ (1000 : Nat) = 1001) ∧ taskId 5 1000 ≠ taskId 5 1001 :=
  ⟨by decide, C8_id_unique_per_pair 5 5 1000 1001 (by decide)⟩

/-! ## Cleanup on analysis failure (claim C4) -/
/-- C4, counterexample.  An Analyze task whose staged copy has vanished
from queue storage (only the original `/tmp/img.jpg` exists) fails with
`FILE_NOT_FOUND_IN_STORAGE`; that early-exit path never touches the
original upload-side source file, which is still on disk after the task is
`failed` — contradicting the claim that both files are gone for every
failed Analyze task. -/
theorem C4_counterexample :
    handle_analysis exGoodAnalyze ["/tmp/img.jpg"] exAnalyzeTask =
      some ({ exAnalyzeTask with
        status := "failed", error := some "FILE_NOT_FOUND_IN_STORAGE" },
        ["/tmp/img.jpg"]) ∧
    "/tmp/img.jpg" ∈ (["/tmp/img.jpg"] : FS) :=
  ⟨rfl, by decide⟩

/-- C4 (amended): for every Analyze task whose staged copy exists at
dispatch time and whose classifier result is not a success (in particular a
policy rejection with `critical_stop`), both the queue-private staged copy
and the original upload-side source file no longer exist on disk after the
task reaches `failed`.  (When the task fails because the staged copy was
already missing, the original source file is left on disk; a worker-crash
failure likewise performs no cleanup.) -/
theorem C4_cleanup_on_failure (analyze : FS → String → AnalyzeResult × FS)
    (fs : FS) (t t' : QTask) (fp sp : String) (fs' : FS)
    (hfp : t.file_path = some fp) (hsp : t.source_file_path = some sp)
    (hmem : fp ∈ fs)
    (hfail : ((analyze fs fp).1.success && dataTruthy (analyze fs fp).1.data) = false)
    (hrun : handle_analysis analyze fs t = some (t', fs')) :
    t'.status = "failed" ∧
    t'.critical_stop = some (analyze fs fp).1.critical_stop ∧
    fp ∉ fs' ∧ sp ∉ fs' := by
  unfold handle_analysis at hrun
  rw [hfp] at hrun
  dsimp only at hrun
  rw [if_pos hmem, hsp] at hrun
  dsimp only at hrun
  rw [hfail] at hrun
  injection hrun with hpair
  have ht := congrArg Prod.fst hpair
  have hfs := congrArg Prod.snd hpair
  dsimp only at ht hfs
  rw [← ht, ← hfs]
  refine ⟨rfl, rfl, ?_, ?_⟩
  · intro hmem'
    unfold FS.remove at hmem'
    rcases List.mem_filter.mp hmem' with ⟨_, hne⟩
    simp at hne
  · intro hmem'
    unfold FS.remove at hmem'
    rcases List.mem_filter.mp hmem' with ⟨hmem2, _⟩
    by_cases hin : sp ∈ (analyze fs fp).2
    · rw [if_pos hin] at hmem2
      rcases List.mem_filter.mp hmem2 with ⟨_, hne⟩
      simp at hne
    · rw [if_neg hin] at hmem2
      exact hin hmem2

/-- Witness for `C4_cleanup_on_failure`: a policy-rejection classifier on
a staged task; both paths are gone from the resulting filesystem. -/
theorem C4_cleanup_witness :
    ({ exAnalyzeTask with
       status := "failed",
       error := some "SECURITY ALERT: HARM_CATEGORY_X: HIGH",
       critical_stop := some true } : QTask).status = "failed" ∧
    ({ exAnalyzeTask with
       status := "failed",
       error := some "SECURITY ALERT: HARM_CATEGORY_X: HIGH",
       critical_stop := some true } : QTask).critical_stop =
      some (exPolicyAnalyze ["/queue/1000_7_img.jpg", "/tmp/img.jpg"]
        "/queue/1000_7_img.jpg").1.critical_stop ∧
    "/queue/1000_7_img.jpg" ∉ ([] : FS) ∧ "/tmp/img.jpg" ∉ ([] : FS) :=
  C4_cleanup_on_failure exPolicyAnalyze ["/queue/1000_7_img.jpg", "/tmp/img.jpg"]
    exAnalyzeTask _ "/queue/1000_7_img.jpg" "/tmp/img.jpg" []
    rfl rfl (by decide) (by decide) rfl

/-! ## Terminal statuses and crash isolation (claims C5 and C1) -/
theorem recoverCrash_failed (s : QTask) :
    (recoverCrash s).status = "failed" ∧
    (recoverCrash s).error = some "WORKER_CRASH" := by
  unfold recoverCrash
  by_cases h : s.status ≠ "failed"
  · rw [if_pos h]
    exact ⟨rfl, rfl⟩
  · rw [if_neg h]
    push_neg at h
    exact ⟨h, rfl⟩

theorem handle_analysis_terminal (analyze : FS → String → AnalyzeResult × FS)
    (fs : FS) (t t' : QTask) (fs' : FS)
    (h : handle_analysis analyze fs t = some (t', fs')) :
    t'.status = "completed" ∨ t'.status = "failed" := by
  unfold handle_analysis at h
  rcases hfp : t.file_path with _ | fp
  · rw [hfp] at h
    exact Option.noConfusion h
  · rw [hfp] at h
    dsimp only at h
    by_cases hmem : fp ∈ fs
    · rw [if_pos hmem] at h
      by_cases hsucc : ((analyze fs fp).1.success && dataTruthy (analyze fs fp).1.data) = true
      · rw [hsucc] at h
        injection h with hp
        have hfst := congrArg Prod.fst hp
        dsimp only at hfst
        rw [← hfst]
        left
        rfl
      · have hf : ((analyze fs fp).1.success && dataTruthy (analyze fs fp).1.data) = false := by
          revert hsucc
          cases ((analyze fs fp).1.success && dataTruthy (analyze fs fp).1.data) <;> simp
        rw [hf] at h
        injection h with hp
        have hfst := congrArg Prod.fst hp
        dsimp only at hfst
        rw [← hfst]
        right
        rfl
    · rw [if_neg hmem] at h
      injection h with hp
      have hfst := congrArg Prod.fst hp
      dsimp only at hfst
      rw [← hfst]
      right
      rfl

theorem handle_generation_terminal
    (gen : Option (String → String → Int → GenResult)) (t t' : QTask)
    (h : handle_generation gen t = some t') :
    t'.status = "completed" ∨ t'.status = "failed" := by
  unfold handle_generation at h
  rcases gen with _ | g
  · exact Option.noConfusion h
  · rcases hp : t.prompt with _ | p
    · rw [hp] at h
      exact Option.noConfusion h
    · rcases ha : t.aspect_ratio with _ | a
      · rw [hp, ha] at h
        exact Option.noConfusion h
      · rw [hp, ha] at h
        dsimp only at h
        by_cases hsucc : ((g p a t.user_id).success &&
            optStrTruthy (g p a t.user_id).filename) = true
        · rw [hsucc] at h
          injection h with hq
          rw [← hq]
          left
          rfl
        · have hf : ((g p a t.user_id).success &&
              optStrTruthy (g p a t.user_id).filename) = false := by
            revert hsucc
            cases ((g p a t.user_id).success && optStrTruthy (g p a t.user_id).filename) <;> simp
          rw [hf] at h
          injection h with hq
          rw [← hq]
          right
          rfl

/-- C5 (amended): once a task's status is `failed`, no later operation
changes the status — crash recovery preserves `failed` (only overwriting
the error code with `WORKER_CRASH`); a dispatch leaves the dequeued task
`completed` or `failed`, and an iteration that ends without a worker crash
leaves the dispatch result untouched, so `completed` is terminal in every
crash-free run.  The single exception the code forces is the
crash-recovery path, which may move a task that had already reached
`completed` inside the iteration to `failed`. -/
theorem C5_terminal_status (analyze : FS → String → AnalyzeResult × FS)
    (generate : Option (String → String → Int → GenResult))
    (fs : FS) (t : QTask) :
    (∀ s : QTask, (recoverCrash s).status = "failed") ∧
    (∀ s : QTask, s.status = "failed" →
      recoverCrash s = { s with error := some "WORKER_CRASH" }) ∧
    (∀ t' fs', dispatchTask analyze generate fs t = some (t', fs') →
      (processIteration analyze generate fs t .ok).task = t' ∧
      (t'.status = "completed" ∨ t'.status = "failed")) := by
  refine ⟨?_, ?_, ?_⟩
  · intro s
    exact (recoverCrash_failed s).1
  · intro s hs
    unfold recoverCrash
    rw [if_neg (by rw [hs]; simp)]
  · intro t' fs' h
    constructor
    · unfold processIteration
      rw [h]
    · unfold dispatchTask at h
      by_cases hty : t.type = "generate"
      · rw [if_pos hty] at h
        cases hg : handle_generation generate t with
        | none => rw [hg] at h; exact Option.noConfusion h
        | some x =>
          rw [hg] at h
          simp only [Option.map_some'] at h
          injection h with hp
          have hx := congrArg Prod.fst hp
          dsimp only at hx
          rw [← hx]
          exact handle_generation_terminal generate t x hg
      · rw [if_neg hty] at h
        exact handle_analysis_terminal analyze fs t t' fs' h

/-- C5, counterexample.  With a successful classifier the dispatch sets the
task's status to `completed` (observable by concurrent pollers); a
`BaseException` later in the same iteration (e.g. during the rate-limit
sleep) runs the crash-recovery block, whose guard only skips tasks already
`failed`, so the `completed` task is forced to `failed` — a transition out
of `Completed`. -/
theorem C5_counterexample :
    (dispatchTask exGoodAnalyze none ["/queue/1000_7_img.jpg"] exAnalyzeTask).map
        (fun r => r.1.status) = some "completed" ∧
    (processIteration exGoodAnalyze none ["/queue/1000_7_img.jpg"] exAnalyzeTask
        (.crash .afterDispatch)).task.status = "failed" ∧
    (processIteration exGoodAnalyze none ["/queue/1000_7_img.jpg"] exAnalyzeTask
        (.crash .afterDispatch)).task.error = some "WORKER_CRASH" :=
  ⟨rfl, rfl, rfl⟩

/-- Witness for `C5_terminal_status`: crash recovery forces the completed
generation task to failed, and a crash-free iteration on a good classifier
ends `completed`. -/
theorem C5_terminal_witness :
    (recoverCrash exGenerateTask).status = "failed" ∧
    (processIteration exGoodAnalyze none ["/queue/1000_7_img.jpg"] exAnalyzeTask .ok).task =
      { exAnalyzeTask with
        status := "completed",
        result := some (Json.obj [("category", Json.str "Nature")]) } ∧
    (({ exAnalyzeTask with
        status := "completed",
        result := some (Json.obj [("category", Json.str "Nature")]) } : QTask).status = "completed" ∨
     ({ exAnalyzeTask with
        status := "completed",
        result := some (Json.obj [("category", Json.str "Nature")]) } : QTask).status = "failed") :=
  have h := C5_terminal_status exGoodAnalyze none ["/queue/1000_7_img.jpg"] exAnalyzeTask
  have h3 := h.2.2
    { exAnalyzeTask with
      status := "completed",
      result := some (Json.obj [("category", Json.str "Nature")]) }
    ["/queue/1000_7_img.jpg"] rfl
  ⟨h.1 exGenerateTask, h3.1, h3.2⟩

theorem runWorker_length (analyze : FS → String → AnalyzeResult × FS)
    (generate : Option (String → String → Int → GenResult)) :
    ∀ (l : List (QTask × IterEvent)) (fs : FS),
      (runWorker analyze generate fs l).1.length = l.length := by
  intro l
  induction l with
  | nil => intro fs; rfl
  | cons x rest ih =>
    intro fs
    rcases x with ⟨t, ev⟩
    show (runWorker analyze generate
      (processIteration analyze generate fs t ev).fs rest).1.length + 1 = rest.length + 1
    rw [ih]

/-- C1: for every task, if the worker-loop iteration is interrupted by any
exception — a `BaseException` at any point of the `try` body, or an
exception escaping the dispatch handler — the worker catches it: the task
ends with status `failed` and error code `WORKER_CRASH`, the queue item is
still acknowledged (`task_done`) in the `finally` block, and the loop
continues with the remaining schedule, processing every remaining task (no
task is left in `processing`, and no single task's exception terminates
the worker). -/
theorem C1_crash_isolation (analyze : FS → String → AnalyzeResult × FS)
    (generate : Option (String → String → Int → GenResult))
    (fs : FS) (t : QTask) (ev : IterEvent) (rest : List (QTask × IterEvent))
    (h : ev ≠ IterEvent.ok ∨ dispatchTask analyze generate fs t = none) :
    (processIteration analyze generate fs t ev).task.status = "failed" ∧
    (processIteration analyze generate fs t ev).task.error = some "WORKER_CRASH" ∧
    (processIteration analyze generate fs t ev).acked = true ∧
    (processIteration analyze generate fs t ev).crashed = true ∧
    runWorker analyze generate fs ((t, ev) :: rest) =
      ((processIteration analyze generate fs t ev) ::
        (runWorker analyze generate (processIteration analyze generate fs t ev).fs rest).1,
       (runWorker analyze generate (processIteration analyze generate fs t ev).fs rest).2) ∧
    (runWorker analyze generate fs ((t, ev) :: rest)).1.length = rest.length + 1 := by
  have hrun : runWorker analyze generate fs ((t, ev) :: rest) =
      ((processIteration analyze generate fs t ev) ::
        (runWorker analyze generate (processIteration analyze generate fs t ev).fs rest).1,
       (runWorker analyze generate (processIteration analyze generate fs t ev).fs rest).2) := rfl
  have hlen : (runWorker analyze generate fs ((t, ev) :: rest)).1.length = rest.length + 1 := by
    rw [hrun]
    show (runWorker analyze generate _ rest).1.length + 1 = rest.length + 1
    rw [runWorker_length]
  rcases ev with _ | p
  · rcases h with hne | hd
    · exact absurd rfl hne
    · have hpi : processIteration analyze generate fs t .ok = ⟨recoverCrash t, fs, true, true⟩ := by
        unfold processIteration
        rw [hd]
      rw [hpi]
      exact ⟨(recoverCrash_failed t).1, (recoverCrash_failed t).2, rfl, rfl, by rw [hpi] at hrun; exact hrun, hlen⟩
  · rcases p with _ | _ | _
    · exact ⟨(recoverCrash_failed t).1, (recoverCrash_failed t).2, rfl, rfl, hrun, hlen⟩
    · exact ⟨(recoverCrash_failed _).1, (recoverCrash_failed _).2, rfl, rfl, hrun, hlen⟩
    · rcases hd : dispatchTask analyze generate fs t with _ | x
      · have hpi : processIteration analyze generate fs t (.crash .afterDispatch) =
            ⟨recoverCrash t, fs, true, true⟩ := by
          unfold processIteration
          rw [hd]
        rw [hpi]
        exact ⟨(recoverCrash_failed t).1, (recoverCrash_failed t).2, rfl, rfl, by rw [hpi] at hrun; exact hrun, hlen⟩
      · rcases x with ⟨t', fs'⟩
        have hpi : processIteration analyze generate fs t (.crash .afterDispatch) =
            ⟨recoverCrash t', fs', true, true⟩ := by
          unfold processIteration
          rw [hd]
        rw [hpi]
        exact ⟨(recoverCrash_failed t').1, (recoverCrash_failed t').2, rfl, rfl, by rw [hpi] at hrun; exact hrun, hlen⟩

/-- Witness for `C1_crash_isolation`: a crash before dispatch, with one
further task still processed afterwards. -/
theorem C1_crash_isolation_witness :
    (processIteration exGoodAnalyze none [] exAnalyzeTask
        (.crash .beforeDispatch)).task.status = "failed" ∧
    (processIteration exGoodAnalyze none [] exAnalyzeTask
        (.crash .beforeDispatch)).task.error = some "WORKER_CRASH" ∧
    (processIteration exGoodAnalyze none [] exAnalyzeTask
        (.crash .beforeDispatch)).acked = true ∧
    (processIteration exGoodAnalyze none [] exAnalyzeTask
        (.crash .beforeDispatch)).crashed = true ∧
    runWorker exGoodAnalyze none [] ((exAnalyzeTask, .crash .beforeDispatch) ::
        [(exAnalyzeTask, IterEvent.ok)]) =
      ((processIteration exGoodAnalyze none [] exAnalyzeTask (.crash .beforeDispatch)) ::
        (runWorker exGoodAnalyze none
          (processIteration exGoodAnalyze none [] exAnalyzeTask (.crash .beforeDispatch)).fs
          [(exAnalyzeTask, IterEvent.ok)]).1,
       (runWorker exGoodAnalyze none
          (processIteration exGoodAnalyze none [] exAnalyzeTask (.crash .beforeDispatch)).fs
          [(exAnalyzeTask, IterEvent.ok)]).2) ∧
    (runWorker exGoodAnalyze none [] ((exAnalyzeTask, .crash .beforeDispatch) ::
        [(exAnalyzeTask, IterEvent.ok)])).1.length =
      [(exAnalyzeTask, IterEvent.ok)].length + 1 :=
  C1_crash_isolation exGoodAnalyze none [] exAnalyzeTask (.crash .beforeDispatch)
    [(exAnalyzeTask, IterEvent.ok)] (Or.inl (fun hh => IterEvent.noConfusion hh))

/-! ## Rate limiting (claim C2) -/
theorem iterDuration_ge_rate (rate : ℚ) (it : IterTiming)
    (h : it.crashed = false) : rate ≤ iterDuration rate it := by
  unfold iterDuration
  rw [h]
  show rate ≤ it.dispatch + (if it.dispatch < rate then rate - it.dispatch else 0)
  by_cases hd : it.dispatch < rate
  · rw [if_pos hd]
    linarith
  · rw [if_neg hd]
    have := not_lt.mp hd
    linarith

/-- C2, counterexample.  With `rate_limit_seconds = 4`, iteration 0
dispatches for one second (invoking the classifier at its start) and then
hits the crash-recovery path: the code replaces the remainder-of-interval
sleep by a fixed one-second delay (`time.sleep(1)`, line 182), so
iteration 1 — which invokes the classifier again — starts only 2 seconds
after iteration 0.  Two classifier invocations 2 < 4 seconds apart refute
the claim that the classifier is never invoked twice within less than the
configured minimum interval across any sequence of tasks. -/
theorem C2_counterexample :
    (exCrashTiming 0).crashed = true ∧
    startTime 4 exCrashTiming 1 - startTime 4 exCrashTiming 0 = 2 ∧
    ((2 : ℚ) < 4) := by
  refine ⟨rfl, ?_, by norm_num⟩
  show (0 : ℚ) + iterDuration 4 (exCrashTiming 0) - 0 = 2
  norm_num [iterDuration, exCrashTiming]

/-- C2 (amended): for every processed task whose dispatch returns (success
or handled failure), the worker sleeps exactly the remainder of the fixed
minimum interval — `rate_limit_seconds` minus the elapsed dispatch time
when that remainder is positive, nothing otherwise — before pulling the
next task; consequently, across any stretch of iterations in which every
dispatch returns (no worker crash), consecutive iteration start times (the
classifier invocation times, the external call opening each dispatch) are
at least the configured minimum interval apart.  When an iteration ends in
the crash-recovery path the remainder-sleep is replaced by a fixed
one-second delay, so around a crashed iteration the spacing can drop below
the interval (see the counterexample). -/
theorem C2_rate_limit (rate : ℚ) (its : Nat → IterTiming) (i j : Nat)
    (hrate : 0 ≤ rate) (hij : i < j)
    (hok : ∀ k, i ≤ k → k < j → (its k).crashed = false) :
    (∀ k, i ≤ k → k < j →
      startTime rate its (k + 1) - startTime rate its k =
        (its k).dispatch +
          (if (its k).dispatch < rate then rate - (its k).dispatch else 0)) ∧
    rate ≤ startTime rate its j - startTime rate its i := by
  constructor
  · intro k hk1 hk2
    have hc := hok k hk1 hk2
    have hst : startTime rate its (k + 1) =
        startTime rate its k + iterDuration rate (its k) := rfl
    rw [hst]
    unfold iterDuration
    rw [hc]
    show startTime rate its k +
        ((its k).dispatch + (if (its k).dispatch < rate then rate - (its k).dispatch else 0)) -
        startTime rate its k = _
    ring
  · have main : ∀ jj, i + 1 ≤ jj →
        ((∀ k, i ≤ k → k < jj → (its k).crashed = false) →
          rate ≤ startTime rate its jj - startTime rate its i) := by
      intro jj hjj
      induction jj, hjj using Nat.le_induction with
      | base =>
        intro hok'
        have hst : startTime rate its (i + 1) =
            startTime rate its i + iterDuration rate (its i) := rfl
        rw [hst]
        have := iterDuration_ge_rate rate (its i) (hok' i (Nat.le_refl i) (by omega))
        linarith
      | succ m hm ih =>
        intro hok'
        have h1 := ih (fun k hk1 hk2 => hok' k hk1 (by omega))
        have hst : startTime rate its (m + 1) =
            startTime rate its m + iterDuration rate (its m) := rfl
        rw [hst]
        have h2 := iterDuration_ge_rate rate (its m) (hok' m (by omega) (by omega))
        linarith
    exact main j hij hok

/-- Witness for `C2_rate_limit`: one-second dispatches under a 4-second
rate limit are spaced at least 4 seconds apart. -/
theorem C2_rate_limit_witness :
    (0 : ℚ) ≤ 4 ∧ (0 : Nat) < 1 ∧
    4 ≤ startTime 4 exTiming 1 - startTime 4 exTiming 0 :=
  ⟨by norm_num, by decide,
    (C2_rate_limit 4 exTiming 0 1 (by norm_num) (by decide)
      (fun k _ _ => rfl)).2⟩

/-! ## Enqueue behaviour and per-owner listing (claims C6, C10, C7) -/
/-- C6: `add_to_queue` never raises to its caller — the model is a total
function and every listed failure condition returns `none`: a missing (or
falsy) Analyze source path, a source path that does not exist on disk, a
staging copy that fails, a Generate call without a configured generator or
with an empty prompt, and an unrecognized task type. -/
theorem C6_enqueue_total (storagePath : String)
    (hasGen copyFails partialWrite : Bool)
    (fs : FS) (st : QMState) (ts : Nat) (c : AddCall)
    (h : (c.task_type = "analyze" ∧
           (c.source_file_path = none ∨
            (∃ src, c.source_file_path = some src ∧
              (src.isEmpty = true ∨ src ∉ fs)) ∨
            copyFails = true)) ∨
         (c.task_type = "generate" ∧
           (hasGen = false ∨ optStrTruthy c.prompt = false)) ∨
         (c.task_type ≠ "analyze" ∧ c.task_type ≠ "generate")) :
    (add_to_queue storagePath hasGen copyFails partialWrite fs st ts c).1 = none := by
  unfold add_to_queue
  rcases h with ⟨hty, hcase⟩ | ⟨hty, hcase⟩ | ⟨hty1, hty2⟩
  · rw [if_pos hty]
    rcases hcase with hnone | ⟨src, hsrc, hbad⟩ | hcopy
    · rw [hnone]
    · rw [hsrc]
      dsimp only
      rcases hbad with he | hnm
      · rw [if_pos (Or.inl he)]
      · rw [if_pos (Or.inr hnm)]
    · cases hsf : c.source_file_path with
      | none => rfl
      | some src =>
        dsimp only
        by_cases hv : src.isEmpty ∨ src ∉ fs
        · rw [if_pos hv]
        · rw [if_neg hv, hcopy]
          exact rfl
  · rw [if_neg (by rw [hty]; decide), if_pos hty]
    rcases hcase with hg | hp
    · rw [hg]
      exact rfl
    · cases hgen : hasGen with
      | false => rfl
      | true =>
        rw [hp]
        exact rfl
  · rw [if_neg hty1, if_neg hty2]

/-- Witness for `C6_enqueue_total`: an unrecognized task type returns
`none`. -/
theorem C6_enqueue_total_witness :
    (add_to_queue "/queue" true false false [] ⟨[], []⟩ 5
      { task_type := "transcode", user_id := 3 }).1 = none :=
  C6_enqueue_total "/queue" true false false [] ⟨[], []⟩ 5
    { task_type := "transcode", user_id := 3 }
    (Or.inr (Or.inr ⟨by decide, by decide⟩))

/-- C10: whenever `add_to_queue` returns `none`, the call left the task
store and the queue exactly as they were: no task record was inserted and
nothing was enqueued (both happen only after a successful staging copy, at
lines 113-114, past every raising statement), so a failed enqueue is
atomic with respect to the store and no partially constructed task is ever
observable via `get_task_status`, `get_tasks_for_user` or the worker loop.
(The filesystem is not claimed unchanged: a `shutil.copy2` that raises may
already have created or partially written the staged file.) -/
theorem C10_enqueue_atomic (storagePath : String)
    (hasGen copyFails partialWrite : Bool)
    (fs : FS) (st : QMState) (ts : Nat) (c : AddCall)
    (h : (add_to_queue storagePath hasGen copyFails partialWrite fs st ts c).1 = none) :
    (add_to_queue storagePath hasGen copyFails partialWrite fs st ts c).2.1 = st := by
  unfold add_to_queue at h ⊢
  by_cases hty : c.task_type = "analyze"
  · rw [if_pos hty] at h ⊢
    cases hsf : c.source_file_path with
    | none => rfl
    | some src =>
      rw [hsf] at h
      dsimp only at h ⊢
      by_cases hv : src.isEmpty ∨ src ∉ fs
      · rw [if_pos hv]
      · rw [if_neg hv] at h ⊢
        cases copyFails with
        | true => rfl
        | false => exact absurd h (by simp)
  · rw [if_neg hty] at h ⊢
    by_cases hty2 : c.task_type = "generate"
    · rw [if_pos hty2] at h ⊢
      cases hasGen with
      | false => rfl
      | true =>
        cases hpt : optStrTruthy c.prompt with
        | false => rfl
        | true =>
          rw [hpt] at h
          exact absurd h (by simp)
    · rw [if_neg hty2]

/-- Witness for `C10_enqueue_atomic`: a failed staging copy that left a
partial file behind still returns `none` with the store and queue
untouched. -/
theorem C10_enqueue_atomic_witness :
    (add_to_queue "/queue" true true true ["/tmp/a.jpg"] ⟨[], []⟩ 5
      exAddCall).2.1 = (⟨[], []⟩ : QMState) :=
  C10_enqueue_atomic "/queue" true true true ["/tmp/a.jpg"] ⟨[], []⟩ 5
    exAddCall rfl

/-- C7: evaluation at the failing input.  A store holding one completed
Generate task of user 7 makes `get_tasks_for_user` for user 7 raise
`KeyError('file_path')` (modelled `.error ()`) instead of returning a
list: Generate records never carry the `file_path` key the loop accesses
unguarded.  The record itself exists and reports `completed`. -/
theorem C7_generate_task_keyerror :
    get_tasks_for_user [] exStore 7 = .error () ∧
    exGenerateTask.status = "completed" ∧ exGenerateTask.file_path = none :=
  ⟨rfl, rfl, rfl⟩
